import Mathlib

/-!
Verification development for the GitSavvy dashboard modules
`core/interfaces/branch.py` and `core/interfaces/status.py`.

The two modules are Sublime Text plugin code: a branch dashboard and a
status dashboard, each rendered from string templates, plus `TextCommand`
action handlers that scan the selected lines of named view regions and
dispatch git operations or further editor commands.

The embedding below is shallow.  Pure string formatting is translated to
Lean string functions.  A command's interaction with the host editor and
with the git helper methods of `GitCommand` is modelled as the list of
`Effect`s the command performs, in program order; a command that does
nothing yields the empty list.  The host editor's view is modelled as its
list of lines; selections and named view regions are modelled as the sets
of line indices they cover.
-/

set_option autoImplicit false

namespace GitSavvy

/-- An observable action a dashboard command performs, in program order.
The constructors cover every call the modelled commands make.
`stageFile`, `stageFileDefault` (the `stage_file(path)` call that leaves
the helper's `force` argument at its default), `unstageFile`,
`addIgnore`, `checkoutFile`, `discardUntrackedFile`,
`addAllTrackedFiles`, `addAllFiles`, `unstageAllFiles`,
`discardAllUnstaged`, `gitCommand` (a raw `self.git(...)` call) and
`launchMergeTool` are the `GitCommand` helper methods invoked directly
(they run git against the repository / working tree or start an external
program); the remaining constructors are host-editor API calls
(`window().run_command`, `view.run_command`, `window().status_message`,
`util.view.refresh_gitsavvy`, `window().open_file`,
`sublime.error_message`, and instantiating a dashboard interface, which
creates a view through the host API). -/
inductive Effect where
  | stageFile : String → Bool → Effect
  | stageFileDefault : String → Effect
  | unstageFile : String → Effect
  | addIgnore : String → Effect
  | checkoutFile : String → Effect
  | discardUntrackedFile : String → Effect
  | addAllTrackedFiles : Effect
  | addAllFiles : Effect
  | unstageAllFiles : Effect
  | discardAllUnstaged : Effect
  | gitCommand : List String → Effect
  | launchMergeTool : String → Effect
  | windowRunCommand : String → List String → Effect
  | viewRunCommand : String → List String → Effect
  | statusMessage : String → Effect
  | errorMessage : String → Effect
  | refreshGitsavvy : Effect
  | openFile : String → Effect
  | createDashboardView : String → Effect
  deriving DecidableEq, Repr

/-- An effect is editor-internal when it goes through the host editor's
command and configuration interface (command dispatch, status bar,
dashboard refresh, opening a view or a dashboard).  The `GitCommand`
helper invocations are not editor-internal: per their call sites'
docstrings they mutate the repository or working tree
(`stage_file`/`unstage_file`/the all-files variants run git against the
index, `checkout_file`/`discard_untracked_file`/`discard_all_unstaged`
overwrite or delete working-tree files, `add_ignore` appends to the git
root's `.gitignore`, raw `git rm`/`git checkout` calls do the same, and
the merge tool is an external program). -/
def isEditorEffect : Effect → Bool
  | Effect.stageFile _ _ => false
  | Effect.stageFileDefault _ => false
  | Effect.unstageFile _ => false
  | Effect.addIgnore _ => false
  | Effect.checkoutFile _ => false
  | Effect.discardUntrackedFile _ => false
  | Effect.addAllTrackedFiles => false
  | Effect.addAllFiles => false
  | Effect.unstageAllFiles => false
  | Effect.discardAllUnstaged => false
  | Effect.gitCommand _ => false
  | Effect.launchMergeTool _ => false
  | Effect.windowRunCommand _ _ => true
  | Effect.viewRunCommand _ _ => true
  | Effect.statusMessage _ => true
  | Effect.errorMessage _ => true
  | Effect.refreshGitsavvy => true
  | Effect.openFile _ => true
  | Effect.createDashboardView _ => true

/-! ### The eleven branch-dashboard action commands (`branch.py`)

Each of the eleven `TextCommand` classes `GsBranchesCheckoutCommand` ..
`GsBranchesRefreshCommand` has a `run(self, edit)` body that is exactly
`pass`: it returns `None`, performs no effect and touches no state.  Each
is embedded as a function from an (arbitrary) edit token and an
(arbitrary) program state to the returned value, the resulting state and
the effects performed. -/

def gsBranchesCheckoutRun {E S : Type} (_edit : E) (s : S) : Option Unit × S × List Effect :=
  (none, s, [])

def gsBranchesCreateNewRun {E S : Type} (_edit : E) (s : S) : Option Unit × S × List Effect :=
  (none, s, [])

def gsBranchesDeleteRun {E S : Type} (_edit : E) (s : S) : Option Unit × S × List Effect :=
  (none, s, [])

def gsBranchesRenameRun {E S : Type} (_edit : E) (s : S) : Option Unit × S × List Effect :=
  (none, s, [])

def gsBranchesConfigureTrackingRun {E S : Type} (_edit : E) (s : S) : Option Unit × S × List Effect :=
  (none, s, [])

def gsBranchesPushSelectedRun {E S : Type} (_edit : E) (s : S) : Option Unit × S × List Effect :=
  (none, s, [])

def gsBranchesPushAllRun {E S : Type} (_edit : E) (s : S) : Option Unit × S × List Effect :=
  (none, s, [])

def gsBranchesMergeSelectedRun {E S : Type} (_edit : E) (s : S) : Option Unit × S × List Effect :=
  (none, s, [])

def gsBranchesFetchAndMergeRun {E S : Type} (_edit : E) (s : S) : Option Unit × S × List Effect :=
  (none, s, [])

def gsBranchesDiffBranchRun {E S : Type} (_edit : E) (s : S) : Option Unit × S × List Effect :=
  (none, s, [])

def gsBranchesRefreshRun {E S : Type} (_edit : E) (s : S) : Option Unit × S × List Effect :=
  (none, s, [])

/-! ### The table of action-handler TextCommand classes

One entry per class defined in the two modules that subclasses
`TextCommand` and defines a `run` method.  `emptyRun` records whether
that `run` body is exactly `pass` (an empty placeholder).
`GsShowBranchCommand` and `GsShowStatusCommand` are `WindowCommand`s and
`GsStatusNavigateFileCommand` subclasses `GsNavigate` and defines no
`run` of its own, so they are not listed. -/

structure ActionHandler where
  name : String
  module : String
  emptyRun : Bool
  deriving DecidableEq, Repr

def branchModuleHandlers : List ActionHandler :=
  [ ⟨"GsBranchesCheckoutCommand", "branch", true⟩,
    ⟨"GsBranchesCreateNewCommand", "branch", true⟩,
    ⟨"GsBranchesDeleteCommand", "branch", true⟩,
    ⟨"GsBranchesRenameCommand", "branch", true⟩,
    ⟨"GsBranchesConfigureTrackingCommand", "branch", true⟩,
    ⟨"GsBranchesPushSelectedCommand", "branch", true⟩,
    ⟨"GsBranchesPushAllCommand", "branch", true⟩,
    ⟨"GsBranchesMergeSelectedCommand", "branch", true⟩,
    ⟨"GsBranchesFetchAndMergeCommand", "branch", true⟩,
    ⟨"GsBranchesDiffBranchCommand", "branch", true⟩,
    ⟨"GsBranchesRefreshCommand", "branch", true⟩ ]

def statusModuleHandlers : List ActionHandler :=
  [ ⟨"GsStatusOpenFileCommand", "status", false⟩,
    ⟨"GsStatusDiffInlineCommand", "status", false⟩,
    ⟨"GsStatusDiffCommand", "status", false⟩,
    ⟨"GsStatusStageFileCommand", "status", false⟩,
    ⟨"GsStatusUnstageFileCommand", "status", false⟩,
    ⟨"GsStatusDiscardChangesToFileCommand", "status", false⟩,
    ⟨"GsStatusOpenFileOnRemoteCommand", "status", false⟩,
    ⟨"GsStatusStageAllFilesCommand", "status", false⟩,
    ⟨"GsStatusStageAllFilesWithUntrackedCommand", "status", false⟩,
    ⟨"GsStatusUnstageAllFilesCommand", "status", false⟩,
    ⟨"GsStatusDiscardAllChangesCommand", "status", false⟩,
    ⟨"GsStatusCommitCommand", "status", false⟩,
    ⟨"GsStatusCommitUnstagedCommand", "status", false⟩,
    ⟨"GsStatusAmendCommand", "status", false⟩,
    ⟨"GsStatusIgnoreFileCommand", "status", false⟩,
    ⟨"GsStatusIgnorePatternCommand", "status", false⟩,
    ⟨"GsStatusStashCommand", "status", false⟩,
    ⟨"GsStatusLaunchMergeToolCommand", "status", false⟩,
    ⟨"GsStatusUseCommitVersionCommand", "status", false⟩,
    ⟨"GsStatusUseBaseVersionCommand", "status", false⟩ ]

def allActionHandlers : List ActionHandler :=
  branchModuleHandlers ++ statusModuleHandlers

/-- C1: each of the eleven branch-dashboard action commands
(`GsBranchesCheckoutCommand`, `GsBranchesCreateNewCommand`,
`GsBranchesDeleteCommand`, `GsBranchesRenameCommand`,
`GsBranchesConfigureTrackingCommand`, `GsBranchesPushSelectedCommand`,
`GsBranchesPushAllCommand`, `GsBranchesMergeSelectedCommand`,
`GsBranchesFetchAndMergeCommand`, `GsBranchesDiffBranchCommand`,
`GsBranchesRefreshCommand`), invoked via `run(edit)` in any state,
performs no operation: it returns `None`, leaves the state unchanged and
performs no effect. -/
theorem branch_commands_run_is_noop {E S : Type} (edit : E) (s : S) :
    gsBranchesCheckoutRun edit s = (none, s, []) ∧
    gsBranchesCreateNewRun edit s = (none, s, []) ∧
    gsBranchesDeleteRun edit s = (none, s, []) ∧
    gsBranchesRenameRun edit s = (none, s, []) ∧
    gsBranchesConfigureTrackingRun edit s = (none, s, []) ∧
    gsBranchesPushSelectedRun edit s = (none, s, []) ∧
    gsBranchesPushAllRun edit s = (none, s, []) ∧
    gsBranchesMergeSelectedRun edit s = (none, s, []) ∧
    gsBranchesFetchAndMergeRun edit s = (none, s, []) ∧
    gsBranchesDiffBranchRun edit s = (none, s, []) ∧
    gsBranchesRefreshRun edit s = (none, s, []) :=
  ⟨rfl, rfl, rfl, rfl, rfl, rfl, rfl, rfl, rfl, rfl, rfl⟩

/-- C2 counterexample: it is not the case that more than half of the
action-handler TextCommand classes defined across the two modules have an
empty-placeholder `run`.  Of the 31 handlers, only the 11 in the branch
module do, and 2 * 11 = 22 is not more than 31. -/
theorem most_handlers_empty_is_false :
    ¬ (allActionHandlers.length <
        2 * (allActionHandlers.filter (fun h => h.emptyRun)).length) := by
  decide

/-- C2 amended: of the 31 action-handler TextCommand classes defined
across the two modules, exactly 11 have an empty-placeholder `run` —
fewer than half — and a handler's `run` is an empty placeholder exactly
when the handler lives in the branch module. -/
theorem empty_handlers_are_exactly_branch_module :
    (allActionHandlers.filter (fun h => h.emptyRun)).length = 11 ∧
    allActionHandlers.length = 31 ∧
    2 * (allActionHandlers.filter (fun h => h.emptyRun)).length
      < allActionHandlers.length ∧
    ∀ h ∈ allActionHandlers, (h.emptyRun = true ↔ h.module = "branch") := by
  refine ⟨by decide, by decide, by decide, ?_⟩
  decide

/-! ### Line scanning over view regions (`status.py` action handlers) -/

/-- Python's notion of whitespace for `str.strip()` (space, tab and the
newline family). -/
def isPySpace (c : Char) : Bool :=
  c == ' ' || c == '\t' || c == '\n' || c == '\r' || c == '\x0b' || c == '\x0c'

/-- Python's `str.strip()`: remove leading and trailing whitespace. -/
def pyStrip (s : String) : String :=
  String.mk (((s.data.dropWhile isPySpace).reverse.dropWhile isPySpace).reverse)

def splitOnNewlineChars : List Char → List (List Char)
  | [] => [[]]
  | c :: rest =>
    match splitOnNewlineChars rest with
    | [] => [[]]
    | h :: t => if c = '\n' then [] :: h :: t else (c :: h) :: t

/-- Python's `str.split("\n")`: the pieces between newlines, keeping
empty pieces. -/
def pySplitLines (s : String) : List String :=
  (splitOnNewlineChars s.data).map String.mk

/-- Modelled from the spec: `util.view.get_lines_from_regions` is not under
`src/`; the spec describes the handlers as "line/region scanning over
editor-view text" that maps keystrokes "to regions of those dashboards".
The view is modelled as its list of lines, the selection and the valid
ranges as the sets of line indices they cover; the call returns, in view
order, the text of each view line that is selected and lies within a
valid range. -/
def get_lines_from_regions (viewLines : List String) (sel : List Nat)
    (valid : List Nat) : List String :=
  (viewLines.enum.filter (fun p => decide (p.1 ∈ sel ∧ p.1 ∈ valid))).map Prod.snd

/-- Lines whose indices lie outside the valid ranges never contribute:
restricting the selection to the valid ranges does not change the result. -/
theorem get_lines_restrict (v : List String) (sel valid : List Nat) :
    get_lines_from_regions v (sel.filter (fun i => decide (i ∈ valid))) valid
      = get_lines_from_regions v sel valid := by
  unfold get_lines_from_regions
  congr 1
  apply List.filter_congr
  intro p _
  by_cases hv : p.1 ∈ valid
  · by_cases hs : p.1 ∈ sel <;> simp [List.mem_filter, hv, hs]
  · simp [hv]

/-- The file paths a `status.py` handler extracts from the selected lines
of the given regions: each selected non-empty line within the regions,
with its first seven characters (the indentation, modification-time and
deleted-marker columns) removed and the rest stripped.  This is the
`tuple(line[7:].strip() for line in lines if line)` idiom shared by the
stage/unstage/discard/ignore/merge-tool handlers. -/
def selected_file_paths (viewLines : List String) (sel : List Nat)
    (regions : List Nat) : List String :=
  ((get_lines_from_regions viewLines sel regions).filter (fun l => l != "")).map
    (fun l => pyStrip (l.drop 7))

/-- Embedding of `GsStatusStageFileCommand.run`: scan the selected lines of
the `unstaged_files`, `untracked_files` and `merge_conflicts` regions;
if any file path results, stage each (with `force=False`), show the
status message and refresh the dashboard; otherwise do nothing. -/
def gsStatusStageFileRun (viewLines : List String) (sel : List Nat)
    (unstagedR untrackedR conflictsR : List Nat) : List Effect :=
  let valid := unstagedR ++ untrackedR ++ conflictsR
  let lines := get_lines_from_regions viewLines sel valid
  let file_paths := (lines.filter (fun l => l != "")).map (fun l => pyStrip (l.drop 7))
  if file_paths.isEmpty then []
  else file_paths.map (fun f => Effect.stageFile f false)
    ++ [Effect.statusMessage "Staged files successfully.", Effect.refreshGitsavvy]

/-- Embedding of `GsStatusUnstageFileCommand.run`: the same scan over the
`staged_files` region only, unstaging each resulting path. -/
def gsStatusUnstageFileRun (viewLines : List String) (sel : List Nat)
    (stagedR : List Nat) : List Effect :=
  let lines := get_lines_from_regions viewLines sel stagedR
  let file_paths := (lines.filter (fun l => l != "")).map (fun l => pyStrip (l.drop 7))
  if file_paths.isEmpty then []
  else file_paths.map (fun f => Effect.unstageFile f)
    ++ [Effect.statusMessage "Unstaged files successfully.", Effect.refreshGitsavvy]

/-- C3: `GsStatusStageFileCommand.run` stages exactly the paths taken
(column 7 onward, stripped) from the selected non-empty lines within the
`unstaged_files`, `untracked_files` and `merge_conflicts` regions, and
`GsStatusUnstageFileCommand.run` unstages exactly those from the
`staged_files` region; selected lines outside the regions never
contribute (restricting the selection to the regions changes nothing);
and when no such line is selected the commands perform no effect at all —
no stage/unstage, no status message, no refresh. -/
theorem stage_unstage_exactly_selected_region_files
    (v : List String) (sel unstagedR untrackedR conflictsR stagedR : List Nat) :
    (gsStatusStageFileRun v sel unstagedR untrackedR conflictsR =
      if (selected_file_paths v sel (unstagedR ++ untrackedR ++ conflictsR)).isEmpty
      then []
      else (selected_file_paths v sel (unstagedR ++ untrackedR ++ conflictsR)).map
             (fun f => Effect.stageFile f false)
           ++ [Effect.statusMessage "Staged files successfully.",
               Effect.refreshGitsavvy]) ∧
    (gsStatusUnstageFileRun v sel stagedR =
      if (selected_file_paths v sel stagedR).isEmpty
      then []
      else (selected_file_paths v sel stagedR).map (fun f => Effect.unstageFile f)
           ++ [Effect.statusMessage "Unstaged files successfully.",
               Effect.refreshGitsavvy]) ∧
    (gsStatusStageFileRun v
        (sel.filter (fun i => decide (i ∈ unstagedR ++ untrackedR ++ conflictsR)))
        unstagedR untrackedR conflictsR
      = gsStatusStageFileRun v sel unstagedR untrackedR conflictsR) ∧
    (gsStatusUnstageFileRun v (sel.filter (fun i => decide (i ∈ stagedR))) stagedR
      = gsStatusUnstageFileRun v sel stagedR) := by
  refine ⟨rfl, rfl, ?_, ?_⟩
  · simp only [gsStatusStageFileRun, get_lines_restrict]
  · simp only [gsStatusUnstageFileRun, get_lines_restrict]

/-! ### `StatusInterface.format_modification_time` -/

/-- Rounding to the nearest integer, ties to even, as Python's fixed-point
float formatting does. -/
def roundHalfEven (q : ℚ) : ℤ :=
  let f := Rat.floor q
  if q - f < 1 / 2 then f
  else if 1 / 2 < q - f then f + 1
  else if f % 2 = 0 then f else f + 1

/-- Python's `"{0:2.0f}".format(x)`: round to zero decimal places and pad
on the left with spaces to a minimum width of two. -/
def fmt2_0f (q : ℚ) : String :=
  let s := toString (roundHalfEven q)
  if s.length < 2 then " " ++ s else s

/-- Embedding of `StatusInterface.format_modification_time`.  The Python
body updates `delta` in place (`delta /= 60`, ...); here each successive
value is written as an explicit quotient of the original difference, so
`delta / 60 / 60` is the value of `delta` after the two `/= 60` steps.
Timestamps are integers and the quotients are exact rationals, modelling
Python's float arithmetic (whose rounding error cannot cross these
thresholds for integer-second inputs).  `savvy_settings.get(
"show_file_change_age")` is modelled by an `Option` argument. -/
def format_modification_time (show_file_change_age : Option Int)
    (now ts : Int) : String :=
  if show_file_change_age = none then "   "
  else if ts = 0 then "   "
  else
    let delta : ℚ := ((now - ts : Int) : ℚ)
    if delta < 60 then fmt2_0f delta ++ "s"
    else if delta / 60 < 60 then fmt2_0f (delta / 60) ++ "m"
    else if delta / 60 / 60 < 60 then fmt2_0f (delta / 60 / 60) ++ "h"
    else if delta / 60 / 60 / 24 < 8 then fmt2_0f (delta / 60 / 60 / 24) ++ "d"
    else if delta / 60 / 60 / 24 / 7 < 4 then
      fmt2_0f (delta / 60 / 60 / 24 / 7) ++ "w"
    else if delta / 60 / 60 / 24 / 7 / 4 < 12 then
      fmt2_0f (delta / 60 / 60 / 24 / 7 / 4) ++ "M"
    else fmt2_0f (delta / 60 / 60 / 24 / 7 / 4 / 12) ++ "Y"

/-- The claim's description of `format_modification_time`, with each
threshold resolved to an absolute bound on `delta = now - ts` in seconds:
seconds below one minute, minutes below 3600 s, hours below 216000 s
(60 hours), days below 691200 s (8 days), weeks below 2419200 s
(4 weeks), 4-week months below 29030400 s (12 such months), years
otherwise; three spaces when the setting is absent or `ts` is zero. -/
def format_modification_time_spec (show_file_change_age : Option Int)
    (now ts : Int) : String :=
  if show_file_change_age = none ∨ ts = 0 then "   "
  else
    let d : ℚ := ((now - ts : Int) : ℚ)
    if d < 60 then fmt2_0f d ++ "s"
    else if d < 3600 then fmt2_0f (d / 60) ++ "m"
    else if d < 216000 then fmt2_0f (d / 3600) ++ "h"
    else if d < 691200 then fmt2_0f (d / 86400) ++ "d"
    else if d < 2419200 then fmt2_0f (d / 604800) ++ "w"
    else if d < 29030400 then fmt2_0f (d / 2419200) ++ "M"
    else fmt2_0f (d / 29030400) ++ "Y"

/-- C8: `format_modification_time` returns three spaces exactly when the
`show_file_change_age` setting is `None` or `ts` is zero, and otherwise
formats the delta with the unit chosen by the first matching threshold
of the seconds/minutes/hours/days/weeks/months/years chain, as stated by
the absolute-threshold description `format_modification_time_spec`. -/
theorem format_modification_time_eq_spec (setting : Option Int) (now ts : Int) :
    format_modification_time setting now ts
      = format_modification_time_spec setting now ts := by
  rcases setting with _ | v
  · rfl
  · unfold format_modification_time format_modification_time_spec
    by_cases h0 : ts = 0
    · simp [h0]
    · have a1 : ∀ x : ℚ, x / 60 / 60 = x / 3600 := fun x => by
        rw [div_div]; norm_num
      have a2 : ∀ x : ℚ, x / 3600 / 24 = x / 86400 := fun x => by
        rw [div_div]; norm_num
      have a3 : ∀ x : ℚ, x / 86400 / 7 = x / 604800 := fun x => by
        rw [div_div]; norm_num
      have a4 : ∀ x : ℚ, x / 604800 / 4 = x / 2419200 := fun x => by
        rw [div_div]; norm_num
      have a5 : ∀ x : ℚ, x / 2419200 / 12 = x / 29030400 := fun x => by
        rw [div_div]; norm_num
      have i1 : ∀ x : ℚ, (x / 60 < 60 ↔ x < 3600) := fun x => by
        rw [div_lt_iff₀ (by norm_num : (0 : ℚ) < 60)]; norm_num
      have i2 : ∀ x : ℚ, (x / 3600 < 60 ↔ x < 216000) := fun x => by
        rw [div_lt_iff₀ (by norm_num : (0 : ℚ) < 3600)]; norm_num
      have i3 : ∀ x : ℚ, (x / 86400 < 8 ↔ x < 691200) := fun x => by
        rw [div_lt_iff₀ (by norm_num : (0 : ℚ) < 86400)]; norm_num
      have i4 : ∀ x : ℚ, (x / 604800 < 4 ↔ x < 2419200) := fun x => by
        rw [div_lt_iff₀ (by norm_num : (0 : ℚ) < 604800)]; norm_num
      have i5 : ∀ x : ℚ, (x / 2419200 < 12 ↔ x < 29030400) := fun x => by
        rw [div_lt_iff₀ (by norm_num : (0 : ℚ) < 2419200)]; norm_num
      simp only [h0, or_false, if_neg h0, reduceCtorEq, a1, a2, a3, a4, a5, i1, i2, i3, i4, i5]
      simp

/-! ### `StatusInterface` file-section rendering -/

/-- A status entry as consumed by the render methods: the fields of the
`FileStatus` records produced by `sort_status_entries(get_status())`.
Absent `path_alt` is modelled as the empty string (both are falsy). -/
structure FileStatus where
  path : String
  path_alt : String
  index_status : String
  working_status : String
  modified : Int
  deriving DecidableEq, Repr

/-- `StatusInterface.template_staged` applied to its one format slot. -/
def template_staged_fmt (x : String) : String :=
  "\n      STAGED:\n    " ++ x ++ "\n    "

/-- `StatusInterface.template_unstaged` applied to its one format slot. -/
def template_unstaged_fmt (x : String) : String :=
  "\n      UNSTAGED:\n    " ++ x ++ "\n    "

/-- `StatusInterface.template_untracked` applied to its one format slot. -/
def template_untracked_fmt (x : String) : String :=
  "\n      UNTRACKED:\n    " ++ x ++ "\n    "

/-- `StatusInterface.template_merge_conflicts` applied to its one slot. -/
def template_merge_conflicts_fmt (x : String) : String :=
  "\n      MERGE CONFLICTS:\n    " ++ x ++ "\n    "

/-- The `get_path` helper inside `render_staged_files`: show
`path_alt -> path` when a rename source exists. -/
def staged_get_path (f : FileStatus) : String :=
  if f.path_alt != "" then f.path_alt ++ " -> " ++ f.path else f.path

/-- Embedding of `StatusInterface.render_staged_files`. -/
def render_staged_files (setting : Option Int) (now : Int)
    (entries : List FileStatus) : String :=
  if entries.isEmpty then ""
  else template_staged_fmt (String.intercalate "\n" (entries.map (fun f =>
    "  " ++ format_modification_time setting now f.modified ++ " "
      ++ (if f.index_status = "D" then "-" else " ") ++ " " ++ staged_get_path f)))

/-- Embedding of `StatusInterface.render_unstaged_files`. -/
def render_unstaged_files (setting : Option Int) (now : Int)
    (entries : List FileStatus) : String :=
  if entries.isEmpty then ""
  else template_unstaged_fmt (String.intercalate "\n" (entries.map (fun f =>
    "  " ++ format_modification_time setting now f.modified ++ " "
      ++ (if f.working_status = "D" then "-" else " ") ++ " " ++ f.path)))

/-- Embedding of `StatusInterface.render_untracked_files`. -/
def render_untracked_files (setting : Option Int) (now : Int)
    (entries : List FileStatus) : String :=
  if entries.isEmpty then ""
  else template_untracked_fmt (String.intercalate "\n" (entries.map (fun f =>
    "  " ++ format_modification_time setting now f.modified ++ "   " ++ f.path)))

/-- Embedding of `StatusInterface.render_merge_conflicts`. -/
def render_merge_conflicts (entries : List FileStatus) : String :=
  if entries.isEmpty then ""
  else template_merge_conflicts_fmt (String.intercalate "\n"
    (entries.map (fun f => "    " ++ f.path)))

/-- The class-level `StatusInterface.conflicts_keybindings` string. -/
def conflicts_keybindings_raw : String :=
  "\n    ###############\n    ## CONFLICTS ##\n    ###############\n\n    [y] use version from your commit\n    [b] use version from the base\n    "

/-- The instance-level string computed in `StatusInterface.__init__`:
every line of the class-level string with its first two characters
removed, re-joined with newlines. -/
def conflicts_keybindings_dedented : String :=
  String.intercalate "\n"
    ((pySplitLines conflicts_keybindings_raw).map (fun l => l.drop 2))

/-- Embedding of `StatusInterface.render_conflicts_bindings`. -/
def render_conflicts_bindings (conflict_entries : List FileStatus) : String :=
  if conflict_entries.isEmpty then "" else conflicts_keybindings_dedented

/-- Embedding of `StatusInterface.render_no_status_message`. -/
def render_no_status_message (staged unstaged untracked conflicts : List FileStatus) :
    String :=
  if staged.isEmpty && unstaged.isEmpty && untracked.isEmpty && conflicts.isEmpty
  then "\n    Your working directory is clean.\n" else ""

theorem template_append_ne_empty (p x q : String) (hp : p.data ≠ []) :
    p ++ x ++ q ≠ "" := by
  intro h
  have hdata := congrArg String.data h
  simp only [String.data_append] at hdata
  rcases List.append_eq_nil.mp (List.append_eq_nil.mp hdata).1 with ⟨hnil, _⟩
  exact hp hnil

/-- C4: each file section renders as the empty string exactly when its
entry list is empty; the conflicts keybindings partial renders non-empty
exactly when the conflict entry list is non-empty; and the message
"Your working directory is clean." is rendered exactly when all four
entry lists are empty. -/
theorem status_sections_empty_iff (setting : Option Int) (now : Int)
    (staged unstaged untracked conflicts : List FileStatus) :
    (render_staged_files setting now staged = "" ↔ staged = []) ∧
    (render_unstaged_files setting now unstaged = "" ↔ unstaged = []) ∧
    (render_untracked_files setting now untracked = "" ↔ untracked = []) ∧
    (render_merge_conflicts conflicts = "" ↔ conflicts = []) ∧
    (render_conflicts_bindings conflicts ≠ "" ↔ conflicts ≠ []) ∧
    (render_no_status_message staged unstaged untracked conflicts
        = "\n    Your working directory is clean.\n"
      ↔ (staged = [] ∧ unstaged = [] ∧ untracked = [] ∧ conflicts = [])) := by
  refine ⟨?_, ?_, ?_, ?_, ?_, ?_⟩
  · unfold render_staged_files
    rcases staged with _ | ⟨f, fs⟩
    · simp
    · simp only [List.isEmpty_cons, if_false, Bool.false_eq_true, reduceCtorEq,
        iff_false]
      exact template_append_ne_empty _ _ _ (by decide)
  · unfold render_unstaged_files
    rcases unstaged with _ | ⟨f, fs⟩
    · simp
    · simp only [List.isEmpty_cons, if_false, Bool.false_eq_true, reduceCtorEq,
        iff_false]
      exact template_append_ne_empty _ _ _ (by decide)
  · unfold render_untracked_files
    rcases untracked with _ | ⟨f, fs⟩
    · simp
    · simp only [List.isEmpty_cons, if_false, Bool.false_eq_true, reduceCtorEq,
        iff_false]
      exact template_append_ne_empty _ _ _ (by decide)
  · unfold render_merge_conflicts
    rcases conflicts with _ | ⟨f, fs⟩
    · simp
    · simp only [List.isEmpty_cons, if_false, Bool.false_eq_true, reduceCtorEq,
        iff_false]
      exact template_append_ne_empty _ _ _ (by decide)
  · unfold render_conflicts_bindings
    rcases conflicts with _ | ⟨f, fs⟩
    · simp
    · have hkb : conflicts_keybindings_dedented ≠ "" := by decide
      simp [hkb]
  · unfold render_no_status_message
    rcases staged with _ | ⟨f1, fs1⟩ <;> rcases unstaged with _ | ⟨f2, fs2⟩ <;>
      rcases untracked with _ | ⟨f3, fs3⟩ <;> rcases conflicts with _ | ⟨f4, fs4⟩ <;>
      simp

/-! ### `BranchInterface` rendering (`branch.py`) -/

/-- A branch record with the fields `branch.py` reads off the tuples that
`get_branches()` yields: `remote`, `name`, `commit_hash`, `tracking`,
`tracking_status` and the `active` flag.  Absent (`None`) string fields
are modelled as the empty string; both are falsy in the source. -/
structure Branch where
  name : String
  remote : String
  commit_hash : String
  tracking : String
  tracking_status : String
  active : Bool
  deriving DecidableEq, Repr

/-- Python's `"{0:.7}".format(s)` on a string: truncation to at most
seven characters. -/
def pyTruncate (s : String) (n : Nat) : String :=
  String.mk (s.data.take n)

/-- The per-branch format expression inside
`BranchInterface.render_branch_list`:
`"  {indicator} {hash:.7} {name} {tracking}"`. -/
def branch_list_line (b : Branch) : String :=
  "  " ++ (if b.active then "▸" else " ") ++ " " ++ pyTruncate b.commit_hash 7
    ++ " " ++ b.name ++ " "
    ++ (if b.tracking != "" then
          "(" ++ b.tracking
            ++ (if b.tracking_status != "" then ", " ++ b.tracking_status else "")
            ++ ")"
        else "")

/-- Embedding of `BranchInterface.render_branch_list`.  When the
`branches` argument is falsy (`None` or empty, both modelled by `[]`) the
local branches of `self._branches` are rendered instead. -/
def render_branch_list (selfBranches : List Branch) (branches : List Branch) :
    String :=
  let bs := if branches.isEmpty then selfBranches.filter (fun b => b.remote == "")
            else branches
  String.intercalate "\n" (bs.map branch_list_line)

/-- The claim's description of one rendered branch line: indicator "▸"
exactly when the branch is active (a space otherwise), commit hash
truncated to at most seven characters, and a parenthesized tracking
suffix exactly when `tracking` is non-empty (with `, tracking_status`
appended inside when that is non-empty too). -/
def branch_line_spec (b : Branch) : String :=
  "  " ++ (if b.active then "▸" else " ") ++ " " ++ pyTruncate b.commit_hash 7
    ++ " " ++ b.name ++ " "
    ++ (if b.tracking = "" then ""
        else "(" ++ b.tracking
          ++ (if b.tracking_status = "" then "" else ", " ++ b.tracking_status)
          ++ ")")

theorem branch_list_line_eq_spec (b : Branch) :
    branch_list_line b = branch_line_spec b := by
  unfold branch_list_line branch_line_spec
  by_cases ht : b.tracking = "" <;> by_cases hs : b.tracking_status = "" <;>
    simp [ht, hs]

/-- C5: on a non-empty branch list, `render_branch_list` emits the lines
`branch_line_spec` of the given branches, joined with newlines in input
order — one line per branch — where a line carries the "▸" indicator
exactly when its branch is active, its commit hash truncated to at most
seven characters, and a parenthesized tracking suffix exactly when its
branch's `tracking` field is non-empty. -/
theorem render_branch_list_lines (selfBranches branches : List Branch)
    (hne : branches ≠ []) :
    render_branch_list selfBranches branches
        = String.intercalate "\n" (branches.map branch_line_spec) ∧
    (branches.map branch_line_spec).length = branches.length ∧
    ∀ b ∈ branches, (pyTruncate b.commit_hash 7).length ≤ 7 := by
  refine ⟨?_, branches.length_map branch_line_spec, ?_⟩
  · have hfun : branch_list_line = branch_line_spec :=
      funext branch_list_line_eq_spec
    rcases branches with _ | ⟨b, bs⟩
    · exact absurd rfl hne
    · simp [render_branch_list, hfun]
  · intro b _
    exact List.length_take_le 7 b.commit_hash.data

/-- C5 witness: the theorem applied to a concrete two-branch list. -/
theorem render_branch_list_lines_witness :
    ([Branch.mk "master" "" "abcdef12345" "origin/master" "ahead 1" true,
      Branch.mk "dev" "" "0123456" "" "" false] ≠ ([] : List Branch)) ∧
    (render_branch_list []
        [Branch.mk "master" "" "abcdef12345" "origin/master" "ahead 1" true,
         Branch.mk "dev" "" "0123456" "" "" false]
      = String.intercalate "\n"
          ([Branch.mk "master" "" "abcdef12345" "origin/master" "ahead 1" true,
            Branch.mk "dev" "" "0123456" "" "" false].map branch_line_spec) ∧
     ([Branch.mk "master" "" "abcdef12345" "origin/master" "ahead 1" true,
       Branch.mk "dev" "" "0123456" "" "" false].map branch_line_spec).length
        = 2 ∧
     ∀ b ∈ [Branch.mk "master" "" "abcdef12345" "origin/master" "ahead 1" true,
            Branch.mk "dev" "" "0123456" "" "" false],
       (pyTruncate b.commit_hash 7).length ≤ 7) :=
  ⟨by decide,
   render_branch_list_lines []
     [Branch.mk "master" "" "abcdef12345" "origin/master" "ahead 1" true,
      Branch.mk "dev" "" "0123456" "" "" false] (by decide)⟩

/-- `BranchInterface.template_remote` applied to its two format slots. -/
def template_remote_fmt (remote_name remote_branch_list : String) : String :=
  "\n      REMOTE (" ++ remote_name ++ "):\n    " ++ remote_branch_list

/-- The semantics of `itertools.groupby(self._branches, lambda branch:
branch.remote)`: the maximal runs of adjacent branches sharing the same
remote name, each with its key. -/
def groupRuns : List Branch → List (String × List Branch)
  | [] => []
  | b :: bs =>
    match groupRuns bs with
    | [] => [(b.remote, [b])]
    | (k, g) :: rest =>
      if b.remote = k then (k, b :: g) :: rest
      else (b.remote, [b]) :: (k, g) :: rest

/-- Embedding of `BranchInterface.render_remotes`: iterate over the
maximal adjacent runs of equal `remote`; skip runs with a falsy remote
name; for each kept run append `"\x7bbranch_list_<remote>\x7d\n"` to the
template (which starts with a newline) and register one render function,
modelled by its partial key paired with the string it returns —
`template_remote` formatted with the run's remote name and the branch
list rendered from the run's branches. -/
def render_remotes (branches : List Branch) : String × List (String × String) :=
  let kept := (groupRuns branches).filter (fun r => r.1 != "")
  ("\n" ++ String.join (kept.map (fun r => "\x7bbranch_list_" ++ r.1 ++ "\x7d\n")),
   kept.map (fun r =>
     ("branch_list_" ++ r.1,
      template_remote_fmt r.1 (render_branch_list branches r.2))))

/-- C6: `render_remotes` emits one placeholder per maximal run of
adjacent branches with the same non-empty remote name — the template is
the newline followed by exactly the render-function keys, each brace-
wrapped and newline-terminated — and one render function per emitted
key, each formatting `template_remote` with the run's remote name and
the rendered branch list of the run; a remote name occurring in two
non-adjacent runs yields two placeholders with the same key, as the
concrete final conjunct shows. -/
theorem render_remotes_one_placeholder_per_run (branches : List Branch) :
    (render_remotes branches).1
        = "\n" ++ String.join (((render_remotes branches).2).map
            (fun p => "\x7b" ++ p.1 ++ "\x7d\n")) ∧
    (render_remotes branches).2
        = ((groupRuns branches).filter (fun r => r.1 != "")).map (fun r =>
            ("branch_list_" ++ r.1,
             template_remote_fmt r.1 (render_branch_list branches r.2))) ∧
    ((render_remotes branches).2).map Prod.fst
        = ((groupRuns branches).filter (fun r => r.1 != "")).map
            (fun r => "branch_list_" ++ r.1) ∧
    ((render_remotes
        [Branch.mk "b1" "a" "1111111" "" "" false,
         Branch.mk "b2" "b" "2222222" "" "" false,
         Branch.mk "b3" "a" "3333333" "" "" false]).2).map Prod.fst
      = ["branch_list_a", "branch_list_b", "branch_list_a"] := by
  refine ⟨?_, rfl, by simp [render_remotes], by decide⟩
  simp only [render_remotes, List.map_map]
  refine congrArg (fun x => "\n" ++ String.join x) ?_
  apply List.map_congr_left
  intro r _
  simp [Function.comp, ← String.append_assoc]

/-! ### `GsStatusStashCommand` (`status.py`) -/

/-- Python's `str.find(c)`: the first index of the character, `-1` when
absent. -/
def pyFindChar (s : String) (c : Char) : Int :=
  match s.data.findIdx? (fun x => x == c) with
  | some i => (i : Int)
  | none => -1

/-- Python's `s[a:b]` character slicing, with negative indices counted
from the end and out-of-range bounds clamped. -/
def pySlice (s : String) (a b : Int) : String :=
  let n : Int := (s.data.length : Int)
  let conv : Int → Nat := fun i =>
    if i < 0 then (max 0 (n + i)).toNat else (min i n).toNat
  String.mk ((s.data.take (conv b)).drop (conv a))

/-- The per-line stash-id extraction of `GsStatusStashCommand.run`:
`line[line.find("(") + 1 : line.find(")")]`. -/
def stash_id_of_line (line : String) : String :=
  pySlice line (pyFindChar line '(' + 1) (pyFindChar line ')')

/-- The stash ids extracted from the selected non-empty lines of the
`stashes` region. -/
def stash_ids (viewLines : List String) (sel : List Nat)
    (stashesR : List Nat) : List String :=
  ((get_lines_from_regions viewLines sel stashesR).filter (fun l => l != "")).map
    stash_id_of_line

/-- Python's `str(action)` as interpolated by `"You can only {}
...".format(action)`: `None` prints as `"None"`. -/
def pyStrOfAction : Option String → String
  | some s => s
  | none => "None"

/-- Embedding of `GsStatusStashCommand.run`.  `ids[0]` is modelled by
`headD ""`; it is only reached in the branch where `ids` has exactly one
element (the length is neither zero nor greater than one). -/
def gsStatusStashRun (viewLines : List String) (sel : List Nat)
    (stashesR : List Nat) (action : Option String) : List Effect :=
  let ids := stash_ids viewLines sel stashesR
  if ids.length = 0 then []
  else if action = some "show" then
    [Effect.windowRunCommand "gs_stash_show" ids]
  else if 1 < ids.length then
    [Effect.statusMessage
      ("You can only " ++ pyStrOfAction action ++ " one stash at a time.")]
  else if action = some "apply" then
    [Effect.windowRunCommand "gs_stash_apply" [ids.headD ""]]
  else if action = some "pop" then
    [Effect.windowRunCommand "gs_stash_pop" [ids.headD ""]]
  else if action = some "drop" then
    [Effect.windowRunCommand "gs_stash_drop" [ids.headD ""]]
  else []

/-- C9: with zero selected stash ids `GsStatusStashCommand.run` does
nothing for every action; with any selection, action `"show"` dispatches
`gs_stash_show` with all selected ids; with more than one id and any
non-`"show"` action the only effect is a status message (no stash
command, repository state untouched); and with exactly one id the
actions `"apply"`, `"pop"` and `"drop"` dispatch the corresponding stash
command on that id. -/
theorem stash_command_guards (v : List String) (sel stashesR : List Nat)
    (action : Option String) :
    (stash_ids v sel stashesR = [] → gsStatusStashRun v sel stashesR action = []) ∧
    (stash_ids v sel stashesR ≠ [] →
      gsStatusStashRun v sel stashesR (some "show")
        = [Effect.windowRunCommand "gs_stash_show" (stash_ids v sel stashesR)]) ∧
    (1 < (stash_ids v sel stashesR).length → action ≠ some "show" →
      gsStatusStashRun v sel stashesR action
        = [Effect.statusMessage
            ("You can only " ++ pyStrOfAction action ++ " one stash at a time.")]) ∧
    (∀ i, stash_ids v sel stashesR = [i] →
      gsStatusStashRun v sel stashesR (some "apply")
          = [Effect.windowRunCommand "gs_stash_apply" [i]] ∧
      gsStatusStashRun v sel stashesR (some "pop")
          = [Effect.windowRunCommand "gs_stash_pop" [i]] ∧
      gsStatusStashRun v sel stashesR (some "drop")
          = [Effect.windowRunCommand "gs_stash_drop" [i]]) := by
  refine ⟨?_, ?_, ?_, ?_⟩
  · intro h
    simp [gsStatusStashRun, h]
  · intro h
    have hlen : ¬ (stash_ids v sel stashesR).length = 0 := by
      simpa [List.length_eq_zero] using h
    simp [gsStatusStashRun, hlen]
  · intro h1 h2
    have hlen : ¬ (stash_ids v sel stashesR).length = 0 := by omega
    simp [gsStatusStashRun, hlen, h1, h2]
  · intro i h
    refine ⟨?_, ?_, ?_⟩ <;> simp [gsStatusStashRun, h]

/-- C9 witness: the theorem's four cases at concrete selections. -/
theorem stash_command_guards_witness :
    (gsStatusStashRun ["    (0) stash message"] [0] [] (some "apply") = []) ∧
    (gsStatusStashRun ["    (0) m1", "    (1) m2"] [0, 1] [0, 1] (some "show")
        = [Effect.windowRunCommand "gs_stash_show" ["0", "1"]]) ∧
    (gsStatusStashRun ["    (0) m1", "    (1) m2"] [0, 1] [0, 1] (some "apply")
        = [Effect.statusMessage "You can only apply one stash at a time."]) ∧
    (gsStatusStashRun ["    (0) m1", "    (1) m2"] [0] [0, 1] (some "pop")
        = [Effect.windowRunCommand "gs_stash_pop" ["0"]]) :=
  ⟨(stash_command_guards ["    (0) stash message"] [0] [] (some "apply")).1
      (by decide),
   (stash_command_guards ["    (0) m1", "    (1) m2"] [0, 1] [0, 1]
      (some "show")).2.1 (by decide),
   (stash_command_guards ["    (0) m1", "    (1) m2"] [0, 1] [0, 1]
      (some "apply")).2.2.1 (by decide) (by decide),
   ((stash_command_guards ["    (0) m1", "    (1) m2"] [0] [0, 1]
      (some "pop")).2.2.2 "0" (by decide)).2.1⟩

/-! ### `GsStatusLaunchMergeToolCommand` (`status.py`) -/

/-- Embedding of `GsStatusLaunchMergeToolCommand.run`.  The command only
guards `len(file_paths) > 1` (showing an error message); otherwise it
schedules `launch_tool_for_file(file_paths[0])`, whose indexing raises
`IndexError` when the tuple is empty — modelled by `Except.error`. -/
def gsStatusLaunchMergeToolRun (viewLines : List String) (sel : List Nat)
    (unstagedR untrackedR conflictsR stagedR : List Nat) :
    Except String (List Effect) :=
  let valid := unstagedR ++ untrackedR ++ conflictsR ++ stagedR
  let lines := get_lines_from_regions viewLines sel valid
  let file_paths := (lines.filter (fun l => l != "")).map (fun l => pyStrip (l.drop 7))
  if 1 < file_paths.length then
    Except.ok [Effect.errorMessage
      "You can only launch merge tool for a single file at a time."]
  else
    match file_paths with
    | [] => Except.error "IndexError"
    | f :: _ => Except.ok [Effect.launchMergeTool f]

/-- C10: the merge-tool command guards only against more than one
selected file; on every selection yielding zero file paths in the valid
regions, execution reaches `file_paths[0]` on the empty tuple, so the
`IndexError` branch is reached. -/
theorem merge_tool_empty_selection_reaches_index_error
    (v : List String) (sel uR tR cR sR : List Nat) :
    (selected_file_paths v sel (uR ++ tR ++ cR ++ sR) = [] →
      gsStatusLaunchMergeToolRun v sel uR tR cR sR = Except.error "IndexError") ∧
    (1 < (selected_file_paths v sel (uR ++ tR ++ cR ++ sR)).length →
      gsStatusLaunchMergeToolRun v sel uR tR cR sR
        = Except.ok [Effect.errorMessage
            "You can only launch merge tool for a single file at a time."]) := by
  constructor
  · intro h
    have h' : ((get_lines_from_regions v sel (uR ++ tR ++ cR ++ sR)).filter
        (fun l => l != "")).map (fun l => pyStrip (l.drop 7)) = [] := h
    simp only [gsStatusLaunchMergeToolRun, h']
    rfl
  · intro h
    have h' : 1 < (((get_lines_from_regions v sel (uR ++ tR ++ cR ++ sR)).filter
        (fun l => l != "")).map (fun l => pyStrip (l.drop 7))).length := h
    simp only [gsStatusLaunchMergeToolRun]
    rw [if_pos h']

/-- C10 witness: the empty selection reaches the `IndexError` branch and
a two-file selection reaches the guard. -/
theorem merge_tool_empty_selection_witness :
    (gsStatusLaunchMergeToolRun [] [] [] [] [] [] = Except.error "IndexError") ∧
    (gsStatusLaunchMergeToolRun ["  12m   a.py", "  12m   b.py"] [0, 1] [0, 1]
        [] [] []
      = Except.ok [Effect.errorMessage
          "You can only launch merge tool for a single file at a time."]) :=
  ⟨(merge_tool_empty_selection_reaches_index_error [] [] [] [] [] []).1 rfl,
   (merge_tool_empty_selection_reaches_index_error
      ["  12m   a.py", "  12m   b.py"] [0, 1] [0, 1] [] [] []).2 (by decide)⟩

/-! ### The remaining commands of the two modules

These embeddings complete the effect model over every command `branch.py`
and `status.py` define, so that the external-effect surface can be
characterized for all of them. -/

/-- Modelled from the spec: `util.view.get_lines_from_regions` called
without `valid_ranges` (as `GsStatusOpenFileCommand` does) returns the
text of every selected view line; the selection lines scanned by the
use-version commands (`view.line(sel)` split on newlines) are the same
lines. -/
def get_lines_from_selection (viewLines : List String) (sel : List Nat) :
    List String :=
  (viewLines.enum.filter (fun p => decide (p.1 ∈ sel))).map Prod.snd

/-- Python's `os.path.join(base, f)` on a POSIX host for a base without a
trailing slash: an absolute `f` replaces the base. -/
def os_path_join (base f : String) : String :=
  match f.data with
  | '/' :: _ => f
  | _ => base ++ "/" ++ f

/-- Embedding of `GsStatusOpenFileCommand.run`: every selected line whose
columns 5-7 hold three spaces (`line[5:8] == "   "`, the not-deleted
marker) names a file (`line[7:].strip()`); each is joined to the
repository path and opened in the host editor. -/
def gsStatusOpenFileRun (repoPath : String) (viewLines : List String)
    (sel : List Nat) : List Effect :=
  let lines := get_lines_from_selection viewLines sel
  let file_paths := (lines.filter (fun l => pySlice l 5 8 == "   ")).map
    (fun l => pyStrip (l.drop 7))
  file_paths.map (fun f => Effect.openFile (os_path_join repoPath f))

/-- Embedding of `GsStatusDiffInlineCommand.run`: paths from the
`unstaged_files` and `merge_conflicts` regions open `gs_inline_diff`
plain, paths from `staged_files` open it in cached mode (dispatched from
the async callback, non-cached first).  The settings dictionary is
modelled by its file-path entry and the cached flag by a `"cached"`
marker. -/
def gsStatusDiffInlineRun (repoPath : String) (viewLines : List String)
    (sel : List Nat) (unstagedR conflictsR stagedR : List Nat) : List Effect :=
  let non_cached_lines := get_lines_from_regions viewLines sel
    (unstagedR ++ conflictsR)
  let non_cached_files := (non_cached_lines.filter
      (fun l => pySlice l 5 8 == "   ")).map
    (fun l => os_path_join repoPath (pyStrip (l.drop 7)))
  let cached_lines := get_lines_from_regions viewLines sel stagedR
  let cached_files := (cached_lines.filter (fun l => pySlice l 5 8 == "   ")).map
    (fun l => os_path_join repoPath (pyStrip (l.drop 7)))
  non_cached_files.map (fun f => Effect.windowRunCommand "gs_inline_diff" [f])
    ++ cached_files.map
      (fun f => Effect.windowRunCommand "gs_inline_diff" ["cached", f])

/-- Embedding of `GsStatusDiffCommand.run`: like the inline variant but
with the `untracked_files` region included among the non-cached sections
and dispatching `gs_diff`; the boolean flags of the argument dictionary
are modelled by string markers. -/
def gsStatusDiffRun (repoPath : String) (viewLines : List String)
    (sel : List Nat) (unstagedR untrackedR conflictsR stagedR : List Nat) :
    List Effect :=
  let non_cached_lines := get_lines_from_regions viewLines sel
    (unstagedR ++ untrackedR ++ conflictsR)
  let non_cached_files := (non_cached_lines.filter
      (fun l => pySlice l 5 8 == "   ")).map
    (fun l => os_path_join repoPath (pyStrip (l.drop 7)))
  let cached_lines := get_lines_from_regions viewLines sel stagedR
  let cached_files := (cached_lines.filter (fun l => pySlice l 5 8 == "   ")).map
    (fun l => os_path_join repoPath (pyStrip (l.drop 7)))
  non_cached_files.map (fun f => Effect.windowRunCommand "gs_diff"
      [f, "current_file"])
    ++ cached_files.map (fun f => Effect.windowRunCommand "gs_diff"
      [f, "in_cached_mode", "current_file"])

/-- Embedding of `GsStatusDiscardChangesToFileCommand.run`: delete the
selected untracked files (`discard_untracked_file`), check out the
selected unstaged and conflicted files (`checkout_file`), then refresh
and show the status message unconditionally.  The
`util.actions.destructive` wrapper is not under `src/` and is
spec-modelled as executing the wrapped action. -/
def gsStatusDiscardChangesToFileRun (viewLines : List String) (sel : List Nat)
    (unstagedR untrackedR conflictsR : List Nat) : List Effect :=
  (if (selected_file_paths viewLines sel untrackedR).isEmpty then []
   else (selected_file_paths viewLines sel untrackedR).map
     (fun f => Effect.discardUntrackedFile f))
  ++ (if (selected_file_paths viewLines sel (unstagedR ++ conflictsR)).isEmpty
      then []
      else (selected_file_paths viewLines sel (unstagedR ++ conflictsR)).map
        (fun f => Effect.checkoutFile f))
  ++ [Effect.refreshGitsavvy,
      Effect.statusMessage "Successfully discarded changes."]

/-- Embedding of `GsStatusStageAllFilesCommand.run`. -/
def gsStatusStageAllFilesRun : List Effect :=
  [Effect.addAllTrackedFiles, Effect.refreshGitsavvy]

/-- Embedding of `GsStatusStageAllFilesWithUntrackedCommand.run`. -/
def gsStatusStageAllFilesWithUntrackedRun : List Effect :=
  [Effect.addAllFiles, Effect.refreshGitsavvy]

/-- Embedding of `GsStatusUnstageAllFilesCommand.run`. -/
def gsStatusUnstageAllFilesRun : List Effect :=
  [Effect.unstageAllFiles, Effect.refreshGitsavvy]

/-- Embedding of `GsStatusDiscardAllChangesCommand.run` (its destructive
wrapper spec-modelled as executing the body). -/
def gsStatusDiscardAllChangesRun : List Effect :=
  [Effect.discardAllUnstaged, Effect.refreshGitsavvy]

/-- Embedding of `GsStatusCommitCommand.run`; the `repo_path` argument of
the dispatched command is host state and is not modelled. -/
def gsStatusCommitRun : List Effect :=
  [Effect.windowRunCommand "gs_commit" []]

/-- Embedding of `GsStatusCommitUnstagedCommand.run`; the boolean
`include_unstaged` argument is modelled by a marker. -/
def gsStatusCommitUnstagedRun : List Effect :=
  [Effect.windowRunCommand "gs_commit" ["include_unstaged"]]

/-- Embedding of `GsStatusAmendCommand.run`; the boolean `amend` argument
is modelled by a marker. -/
def gsStatusAmendRun : List Effect :=
  [Effect.windowRunCommand "gs_commit" ["amend"]]

/-- Embedding of `GsStatusIgnorePatternCommand.run`: with at least one
selected path, dispatch `gs_ignore_pattern` prefilled with the first. -/
def gsStatusIgnorePatternRun (viewLines : List String) (sel : List Nat)
    (unstagedR untrackedR conflictsR stagedR : List Nat) : List Effect :=
  match selected_file_paths viewLines sel
      (unstagedR ++ untrackedR ++ conflictsR ++ stagedR) with
  | [] => []
  | p :: _ => [Effect.windowRunCommand "gs_ignore_pattern" [p]]

/-- `GsStatusUseCommitVersionCommand.is_commit_version_deleted`: the
`working_status == "D"` flag of the first conflict entry matching the
path, `False` when none matches. -/
def is_commit_version_deleted (path : String) (conflicts : List FileStatus) :
    Bool :=
  match conflicts.find? (fun c => c.path == path) with
  | some c => c.working_status == "D"
  | none => false

/-- `GsStatusUseBaseVersionCommand.is_base_version_deleted`: the same
with `index_status`. -/
def is_base_version_deleted (path : String) (conflicts : List FileStatus) :
    Bool :=
  match conflicts.find? (fun c => c.path == path) with
  | some c => c.index_status == "D"
  | none => false

/-- The per-path effects of `GsStatusUseCommitVersionCommand.run_async`:
`git rm` for a conflict whose commit version is deleted, otherwise
`git checkout --theirs` followed by `stage_file` (helper-default
`force`). -/
def use_commit_version_path_effects (conflicts : List FileStatus)
    (p : String) : List Effect :=
  if is_commit_version_deleted p conflicts then
    [Effect.gitCommand ["rm", "--", p]]
  else
    [Effect.gitCommand ["checkout", "--theirs", "--", p],
     Effect.stageFileDefault p]

/-- The per-path effects of `GsStatusUseBaseVersionCommand.run_async`,
with `--ours`. -/
def use_base_version_path_effects (conflicts : List FileStatus)
    (p : String) : List Effect :=
  if is_base_version_deleted p conflicts then
    [Effect.gitCommand ["rm", "--", p]]
  else
    [Effect.gitCommand ["checkout", "--ours", "--", p],
     Effect.stageFileDefault p]

/-- Embedding of `GsStatusUseCommitVersionCommand.run` (via `run_async`):
each non-empty selected line yields the path `line[5:]`; the per-path git
effects run in order, then the dashboard refreshes. -/
def gsStatusUseCommitVersionRun (viewLines : List String) (sel : List Nat)
    (conflicts : List FileStatus) : List Effect :=
  let paths := ((get_lines_from_selection viewLines sel).filter
    (fun l => l != "")).map (fun l => l.drop 5)
  (paths.map (use_commit_version_path_effects conflicts)).flatten
    ++ [Effect.refreshGitsavvy]

/-- Embedding of `GsStatusUseBaseVersionCommand.run` (via `run_async`). -/
def gsStatusUseBaseVersionRun (viewLines : List String) (sel : List Nat)
    (conflicts : List FileStatus) : List Effect :=
  let paths := ((get_lines_from_selection viewLines sel).filter
    (fun l => l != "")).map (fun l => l.drop 5)
  (paths.map (use_base_version_path_effects conflicts)).flatten
    ++ [Effect.refreshGitsavvy]

/-- Embedding of `GsShowBranchCommand.run`: instantiating
`BranchInterface` creates and renders a branch dashboard view through
the host API (its rendering issues only read-only git queries, which
mutate nothing). -/
def gsShowBranchRun : List Effect :=
  [Effect.createDashboardView "branch"]

/-- Embedding of `GsShowStatusCommand.run`: instantiating
`StatusInterface` creates and renders a status dashboard view through
the host API. -/
def gsShowStatusRun : List Effect :=
  [Effect.createDashboardView "status"]

/-! ### `GsStatusIgnoreFileCommand` and `GsStatusOpenFileOnRemoteCommand` -/

/-- Python's `os.path.join("/", fpath)` on a POSIX host: prefix a slash
unless the path is already absolute. -/
def os_path_join_root (f : String) : String :=
  match f.data with
  | '/' :: _ => f
  | _ => "/" ++ f

/-- Embedding of `GsStatusIgnoreFileCommand.run`: scan the selected lines
of all four file regions; if any path results, call `add_ignore` —
which, per the command's own docstring, adds an entry to the git root's
`.gitignore` file — on each, then show the status message and refresh. -/
def gsStatusIgnoreFileRun (viewLines : List String) (sel : List Nat)
    (unstagedR untrackedR conflictsR stagedR : List Nat) : List Effect :=
  let valid := unstagedR ++ untrackedR ++ conflictsR ++ stagedR
  let lines := get_lines_from_regions viewLines sel valid
  let file_paths := (lines.filter (fun l => l != "")).map (fun l => pyStrip (l.drop 7))
  if file_paths.isEmpty then []
  else file_paths.map (fun f => Effect.addIgnore (os_path_join_root f))
    ++ [Effect.statusMessage "Successfully ignored files.", Effect.refreshGitsavvy]

/-- Embedding of `GsStatusOpenFileOnRemoteCommand.run`: scan the selected
lines of the `unstaged_files`, `merge_conflicts` and `staged_files`
regions and unconditionally dispatch the `gs_open_file_on_remote` editor
command with the resulting path list. -/
def gsStatusOpenFileOnRemoteRun (viewLines : List String) (sel : List Nat)
    (unstagedR conflictsR stagedR : List Nat) : List Effect :=
  let valid := unstagedR ++ conflictsR ++ stagedR
  let lines := get_lines_from_regions viewLines sel valid
  let file_paths := (lines.filter (fun l => l != "")).map (fun l => pyStrip (l.drop 7))
  [Effect.viewRunCommand "gs_open_file_on_remote" file_paths]

/-- C7 counterexample: a command in the two modules whose run produces an
effect observable outside the host editor's command and configuration
interface.  With one unstaged file selected, `GsStatusIgnoreFileCommand`
invokes the `add_ignore` git helper, which writes to the repository's
`.gitignore` — not an editor-internal effect. -/
theorem ignore_command_has_noneditor_effect :
    gsStatusIgnoreFileRun ["  12m   foo.py"] [0] [0] [] [] []
        = [Effect.addIgnore "/foo.py",
           Effect.statusMessage "Successfully ignored files.",
           Effect.refreshGitsavvy] ∧
    isEditorEffect (Effect.addIgnore "/foo.py") = false :=
  ⟨by decide, rfl⟩

theorem filter_noneditor_of_all_editor (l : List Effect)
    (h : ∀ e ∈ l, isEditorEffect e = true) :
    l.filter (fun e => !(isEditorEffect e)) = [] := by
  induction l with
  | nil => rfl
  | cons e es ih =>
    have he : isEditorEffect e = true := h e (List.mem_cons_self e es)
    simp [he, ih (fun x hx => h x (List.mem_cons_of_mem e hx))]

theorem filter_noneditor_stage (paths : List String) :
    (paths.map (fun f => Effect.stageFile f false)).filter
        (fun e => !(isEditorEffect e))
      = paths.map (fun f => Effect.stageFile f false) := by
  induction paths with
  | nil => rfl
  | cons p ps ih => simp [isEditorEffect, ih]

theorem filter_noneditor_unstage (paths : List String) :
    (paths.map (fun f => Effect.unstageFile f)).filter
        (fun e => !(isEditorEffect e))
      = paths.map (fun f => Effect.unstageFile f) := by
  induction paths with
  | nil => rfl
  | cons p ps ih => simp [isEditorEffect, ih]

theorem filter_noneditor_ignore (paths : List String) :
    (paths.map (fun f => Effect.addIgnore (os_path_join_root f))).filter
        (fun e => !(isEditorEffect e))
      = paths.map (fun f => Effect.addIgnore (os_path_join_root f)) := by
  induction paths with
  | nil => rfl
  | cons p ps ih => simp [isEditorEffect, ih]

theorem filter_noneditor_discard_untracked (paths : List String) :
    (paths.map (fun f => Effect.discardUntrackedFile f)).filter
        (fun e => !(isEditorEffect e))
      = paths.map (fun f => Effect.discardUntrackedFile f) := by
  induction paths with
  | nil => rfl
  | cons p ps ih => simp [isEditorEffect, ih]

theorem filter_noneditor_checkout (paths : List String) :
    (paths.map (fun f => Effect.checkoutFile f)).filter
        (fun e => !(isEditorEffect e))
      = paths.map (fun f => Effect.checkoutFile f) := by
  induction paths with
  | nil => rfl
  | cons p ps ih => simp [isEditorEffect, ih]

theorem filter_noneditor_keeps_of_all_noneditor (l : List Effect)
    (h : ∀ e ∈ l, isEditorEffect e = false) :
    l.filter (fun e => !(isEditorEffect e)) = l := by
  induction l with
  | nil => rfl
  | cons e es ih =>
    have he : isEditorEffect e = false := h e (List.mem_cons_self e es)
    simp [he, ih (fun x hx => h x (List.mem_cons_of_mem e hx))]

/-- C7 amended: the two modules' commands do produce externally
observable effects, and exactly through their `GitCommand` git-helper
invocations.  For every command defined in `branch.py` and `status.py`,
filtering its effects down to the non-editor ones leaves precisely its
git-helper calls: the `stage_file`/`unstage_file` calls of the
stage/unstage commands, the `add_ignore` calls of the ignore command,
the `discard_untracked_file`/`checkout_file` calls of the discard
command, the all-files helpers of the four all-files commands, the raw
`git rm`/`git checkout` and default-force `stage_file` calls of the
use-version commands, and the external merge-tool launch — while the
dashboard-opening commands, the eleven branch placeholders and the
purely dispatching commands (open file, the diff pair, open-on-remote,
the commit trio, ignore-pattern, stash) have none. -/
theorem noneditor_effects_are_exactly_git_helper_calls {E S : Type}
    (edit : E) (st : S) (repoPath : String) (v : List String)
    (sel uR tR cR sR stR : List Nat) (action : Option String)
    (conflicts : List FileStatus) :
    (gsShowBranchRun.filter (fun e => !(isEditorEffect e)) = []) ∧
    ((gsBranchesCheckoutRun edit st).2.2.filter
        (fun e => !(isEditorEffect e)) = []) ∧
    ((gsBranchesCreateNewRun edit st).2.2.filter
        (fun e => !(isEditorEffect e)) = []) ∧
    ((gsBranchesDeleteRun edit st).2.2.filter
        (fun e => !(isEditorEffect e)) = []) ∧
    ((gsBranchesRenameRun edit st).2.2.filter
        (fun e => !(isEditorEffect e)) = []) ∧
    ((gsBranchesConfigureTrackingRun edit st).2.2.filter
        (fun e => !(isEditorEffect e)) = []) ∧
    ((gsBranchesPushSelectedRun edit st).2.2.filter
        (fun e => !(isEditorEffect e)) = []) ∧
    ((gsBranchesPushAllRun edit st).2.2.filter
        (fun e => !(isEditorEffect e)) = []) ∧
    ((gsBranchesMergeSelectedRun edit st).2.2.filter
        (fun e => !(isEditorEffect e)) = []) ∧
    ((gsBranchesFetchAndMergeRun edit st).2.2.filter
        (fun e => !(isEditorEffect e)) = []) ∧
    ((gsBranchesDiffBranchRun edit st).2.2.filter
        (fun e => !(isEditorEffect e)) = []) ∧
    ((gsBranchesRefreshRun edit st).2.2.filter
        (fun e => !(isEditorEffect e)) = []) ∧
    (gsShowStatusRun.filter (fun e => !(isEditorEffect e)) = []) ∧
    ((gsStatusOpenFileRun repoPath v sel).filter
        (fun e => !(isEditorEffect e)) = []) ∧
    ((gsStatusDiffInlineRun repoPath v sel uR cR sR).filter
        (fun e => !(isEditorEffect e)) = []) ∧
    ((gsStatusDiffRun repoPath v sel uR tR cR sR).filter
        (fun e => !(isEditorEffect e)) = []) ∧
    ((gsStatusStageFileRun v sel uR tR cR).filter (fun e => !(isEditorEffect e))
        = if (selected_file_paths v sel (uR ++ tR ++ cR)).isEmpty then []
          else (selected_file_paths v sel (uR ++ tR ++ cR)).map
                 (fun f => Effect.stageFile f false)) ∧
    ((gsStatusUnstageFileRun v sel sR).filter (fun e => !(isEditorEffect e))
        = if (selected_file_paths v sel sR).isEmpty then []
          else (selected_file_paths v sel sR).map
                 (fun f => Effect.unstageFile f)) ∧
    ((gsStatusDiscardChangesToFileRun v sel uR tR cR).filter
        (fun e => !(isEditorEffect e))
        = (if (selected_file_paths v sel tR).isEmpty then []
           else (selected_file_paths v sel tR).map
             (fun f => Effect.discardUntrackedFile f))
          ++ (if (selected_file_paths v sel (uR ++ cR)).isEmpty then []
              else (selected_file_paths v sel (uR ++ cR)).map
                (fun f => Effect.checkoutFile f))) ∧
    ((gsStatusOpenFileOnRemoteRun v sel uR cR sR).filter
        (fun e => !(isEditorEffect e)) = []) ∧
    (gsStatusStageAllFilesRun.filter (fun e => !(isEditorEffect e))
        = [Effect.addAllTrackedFiles]) ∧
    (gsStatusStageAllFilesWithUntrackedRun.filter
        (fun e => !(isEditorEffect e)) = [Effect.addAllFiles]) ∧
    (gsStatusUnstageAllFilesRun.filter (fun e => !(isEditorEffect e))
        = [Effect.unstageAllFiles]) ∧
    (gsStatusDiscardAllChangesRun.filter (fun e => !(isEditorEffect e))
        = [Effect.discardAllUnstaged]) ∧
    (gsStatusCommitRun.filter (fun e => !(isEditorEffect e)) = []) ∧
    (gsStatusCommitUnstagedRun.filter (fun e => !(isEditorEffect e)) = []) ∧
    (gsStatusAmendRun.filter (fun e => !(isEditorEffect e)) = []) ∧
    ((gsStatusIgnoreFileRun v sel uR tR cR sR).filter
        (fun e => !(isEditorEffect e))
        = if (selected_file_paths v sel (uR ++ tR ++ cR ++ sR)).isEmpty then []
          else (selected_file_paths v sel (uR ++ tR ++ cR ++ sR)).map
                 (fun f => Effect.addIgnore (os_path_join_root f))) ∧
    ((gsStatusIgnorePatternRun v sel uR tR cR sR).filter
        (fun e => !(isEditorEffect e)) = []) ∧
    ((gsStatusStashRun v sel stR action).filter
        (fun e => !(isEditorEffect e)) = []) ∧
    ((match gsStatusLaunchMergeToolRun v sel uR tR cR sR with
        | Except.ok es => es.filter (fun e => !(isEditorEffect e))
        | Except.error _ => ([] : List Effect))
        = if 1 < (selected_file_paths v sel (uR ++ tR ++ cR ++ sR)).length
          then []
          else (selected_file_paths v sel (uR ++ tR ++ cR ++ sR)).map
            (fun f => Effect.launchMergeTool f)) ∧
    ((gsStatusUseCommitVersionRun v sel conflicts).filter
        (fun e => !(isEditorEffect e))
        = ((((get_lines_from_selection v sel).filter (fun l => l != "")).map
            (fun l => l.drop 5)).map
              (use_commit_version_path_effects conflicts)).flatten) ∧
    ((gsStatusUseBaseVersionRun v sel conflicts).filter
        (fun e => !(isEditorEffect e))
        = ((((get_lines_from_selection v sel).filter (fun l => l != "")).map
            (fun l => l.drop 5)).map
              (use_base_version_path_effects conflicts)).flatten) := by
  refine ⟨rfl, rfl, rfl, rfl, rfl, rfl, rfl, rfl, rfl, rfl, rfl, rfl, rfl,
    ?_, ?_, ?_, ?_, ?_, ?_, rfl, rfl, rfl, rfl, rfl, rfl, rfl, rfl,
    ?_, ?_, ?_, ?_, ?_, ?_⟩
  · apply filter_noneditor_of_all_editor
    intro e he
    simp only [gsStatusOpenFileRun] at he
    rcases List.mem_map.mp he with ⟨f, -, rfl⟩
    rfl
  · apply filter_noneditor_of_all_editor
    intro e he
    simp only [gsStatusDiffInlineRun] at he
    rcases List.mem_append.mp he with h | h <;>
      (rcases List.mem_map.mp h with ⟨f, -, rfl⟩; rfl)
  · apply filter_noneditor_of_all_editor
    intro e he
    simp only [gsStatusDiffRun] at he
    rcases List.mem_append.mp he with h | h <;>
      (rcases List.mem_map.mp h with ⟨f, -, rfl⟩; rfl)
  · show (if (selected_file_paths v sel (uR ++ tR ++ cR)).isEmpty then []
      else (selected_file_paths v sel (uR ++ tR ++ cR)).map
             (fun f => Effect.stageFile f false)
        ++ [Effect.statusMessage "Staged files successfully.",
            Effect.refreshGitsavvy]).filter (fun e => !(isEditorEffect e)) = _
    by_cases hp : (selected_file_paths v sel (uR ++ tR ++ cR)).isEmpty
    · rw [if_pos hp, if_pos hp]
      rfl
    · rw [if_neg hp, if_neg hp, List.filter_append, filter_noneditor_stage]
      simp [isEditorEffect]
  · show (if (selected_file_paths v sel sR).isEmpty then []
      else (selected_file_paths v sel sR).map (fun f => Effect.unstageFile f)
        ++ [Effect.statusMessage "Unstaged files successfully.",
            Effect.refreshGitsavvy]).filter (fun e => !(isEditorEffect e)) = _
    by_cases hp : (selected_file_paths v sel sR).isEmpty
    · rw [if_pos hp, if_pos hp]
      rfl
    · rw [if_neg hp, if_neg hp, List.filter_append, filter_noneditor_unstage]
      simp [isEditorEffect]
  · show ((if (selected_file_paths v sel tR).isEmpty then []
        else (selected_file_paths v sel tR).map
          (fun f => Effect.discardUntrackedFile f))
      ++ (if (selected_file_paths v sel (uR ++ cR)).isEmpty then []
          else (selected_file_paths v sel (uR ++ cR)).map
            (fun f => Effect.checkoutFile f))
      ++ [Effect.refreshGitsavvy,
          Effect.statusMessage "Successfully discarded changes."]).filter
        (fun e => !(isEditorEffect e)) = _
    rw [List.filter_append, List.filter_append,
      show ([Effect.refreshGitsavvy,
          Effect.statusMessage "Successfully discarded changes."].filter
            (fun e => !(isEditorEffect e))) = [] from rfl,
      List.append_nil]
    by_cases h1 : (selected_file_paths v sel tR).isEmpty <;>
      by_cases h2 : (selected_file_paths v sel (uR ++ cR)).isEmpty
    · rw [if_pos h1, if_pos h2]
      rfl
    · rw [if_pos h1, if_neg h2, filter_noneditor_checkout]
      rfl
    · rw [if_neg h1, if_pos h2, filter_noneditor_discard_untracked]
      rfl
    · rw [if_neg h1, if_neg h2, filter_noneditor_discard_untracked,
        filter_noneditor_checkout]
  · show (if (selected_file_paths v sel (uR ++ tR ++ cR ++ sR)).isEmpty then []
      else (selected_file_paths v sel (uR ++ tR ++ cR ++ sR)).map
             (fun f => Effect.addIgnore (os_path_join_root f))
        ++ [Effect.statusMessage "Successfully ignored files.",
            Effect.refreshGitsavvy]).filter (fun e => !(isEditorEffect e)) = _
    by_cases hp : (selected_file_paths v sel (uR ++ tR ++ cR ++ sR)).isEmpty
    · rw [if_pos hp, if_pos hp]
      rfl
    · rw [if_neg hp, if_neg hp, List.filter_append, filter_noneditor_ignore]
      simp [isEditorEffect]
  · apply filter_noneditor_of_all_editor
    intro e he
    unfold gsStatusIgnorePatternRun at he
    revert he
    split
    · intro he
      simp at he
    · intro he
      simp at he
      subst he
      rfl
  · apply filter_noneditor_of_all_editor
    intro e he
    unfold gsStatusStashRun at he
    by_cases h0 : (stash_ids v sel stR).length = 0
    · rw [if_pos h0] at he
      simp at he
    · rw [if_neg h0] at he
      by_cases hshow : action = some "show"
      · rw [if_pos hshow] at he
        simp at he
        subst he
        rfl
      · rw [if_neg hshow] at he
        by_cases hlen : 1 < (stash_ids v sel stR).length
        · rw [if_pos hlen] at he
          simp at he
          subst he
          rfl
        · rw [if_neg hlen] at he
          by_cases ha : action = some "apply"
          · rw [if_pos ha] at he
            simp at he
            subst he
            rfl
          · rw [if_neg ha] at he
            by_cases hp : action = some "pop"
            · rw [if_pos hp] at he
              simp at he
              subst he
              rfl
            · rw [if_neg hp] at he
              by_cases hd : action = some "drop"
              · rw [if_pos hd] at he
                simp at he
                subst he
                rfl
              · rw [if_neg hd] at he
                simp at he
  · show (match (if 1 < (selected_file_paths v sel
          (uR ++ tR ++ cR ++ sR)).length
        then (Except.ok [Effect.errorMessage
          "You can only launch merge tool for a single file at a time."] :
          Except String (List Effect))
        else (match selected_file_paths v sel (uR ++ tR ++ cR ++ sR) with
          | [] => Except.error "IndexError"
          | f :: _ => Except.ok [Effect.launchMergeTool f])) with
      | Except.ok es => es.filter (fun e => !(isEditorEffect e))
      | Except.error _ => ([] : List Effect)) = _
    generalize selected_file_paths v sel (uR ++ tR ++ cR ++ sR) = ps
    rcases ps with _ | ⟨p, rest⟩
    · rfl
    · rcases rest with _ | ⟨q, rest2⟩
      · rfl
      · have hlen : 1 < (p :: q :: rest2).length := by
          simp only [List.length_cons]
          omega
        rw [if_pos hlen, if_pos hlen]
        rfl
  · show (((((get_lines_from_selection v sel).filter (fun l => l != "")).map
          (fun l => l.drop 5)).map
        (use_commit_version_path_effects conflicts)).flatten
      ++ [Effect.refreshGitsavvy]).filter (fun e => !(isEditorEffect e)) = _
    have hall : ∀ e ∈ ((((get_lines_from_selection v sel).filter
        (fun l => l != "")).map (fun l => l.drop 5)).map
          (use_commit_version_path_effects conflicts)).flatten,
        isEditorEffect e = false := by
      intro e he
      rcases List.mem_flatten.mp he with ⟨l, hl, hel⟩
      rcases List.mem_map.mp hl with ⟨p, -, rfl⟩
      unfold use_commit_version_path_effects at hel
      by_cases hd : is_commit_version_deleted p conflicts = true
      · rw [if_pos hd] at hel
        simp at hel
        subst hel
        rfl
      · rw [if_neg hd] at hel
        simp at hel
        rcases hel with rfl | rfl <;> rfl
    rw [List.filter_append,
      filter_noneditor_keeps_of_all_noneditor _ hall,
      show ([Effect.refreshGitsavvy].filter
        (fun e => !(isEditorEffect e))) = [] from rfl,
      List.append_nil]
  · show (((((get_lines_from_selection v sel).filter (fun l => l != "")).map
          (fun l => l.drop 5)).map
        (use_base_version_path_effects conflicts)).flatten
      ++ [Effect.refreshGitsavvy]).filter (fun e => !(isEditorEffect e)) = _
    have hall : ∀ e ∈ ((((get_lines_from_selection v sel).filter
        (fun l => l != "")).map (fun l => l.drop 5)).map
          (use_base_version_path_effects conflicts)).flatten,
        isEditorEffect e = false := by
      intro e he
      rcases List.mem_flatten.mp he with ⟨l, hl, hel⟩
      rcases List.mem_map.mp hl with ⟨p, -, rfl⟩
      unfold use_base_version_path_effects at hel
      by_cases hd : is_base_version_deleted p conflicts = true
      · rw [if_pos hd] at hel
        simp at hel
        subst hel
        rfl
      · rw [if_neg hd] at hel
        simp at hel
        rcases hel with rfl | rfl <;> rfl
    rw [List.filter_append,
      filter_noneditor_keeps_of_all_noneditor _ hall,
      show ([Effect.refreshGitsavvy].filter
        (fun e => !(isEditorEffect e))) = [] from rfl,
      List.append_nil]

end GitSavvy
